import Mathlib

/-!
Verification of the deployment/process-supervision pipeline of
`deployment_script_simple.py` (variant with the build stage), together with
`secrets_manager_simple.get_secret`.  Python functions are shallowly embedded
as Lean functions; the host environment (filesystem, AWS responses, child
process fates) is passed in explicitly as data, and side effects relevant to
the claims (stages executed, subprocess calls, signals delivered) are
returned as explicit event traces.
-/

namespace Ec2Deploy

/-- Python exception values that can reach the handlers in the scripts.
`systemExit` (raised by `sys.exit`, e.g. from the signal handler) and
`keyboardInterrupt` derive from `BaseException` but not from `Exception`,
so a Python `except Exception` handler does not catch them. -/
inductive PyExc
  | calledProcessError (returncode : Int) (stderr : String)
  | osError (msg : String)
  | otherError (msg : String)
  | systemExit (code : Nat)
  | keyboardInterrupt
deriving DecidableEq

/-- Whether a raised value is caught by a Python `except Exception` handler
(true exactly for the `Exception`-derived classes). -/
def PyExc.isExceptionKind : PyExc → Bool
  | .systemExit _ => false
  | .keyboardInterrupt => false
  | _ => true

/-- Outcome of the AWS Secrets Manager call made inside
`secrets_manager_simple.get_secret`, one constructor per handled branch. -/
inductive AwsResponse
  | success (secretString : String)
  | clientError (errorCode : String)
  | noCredentialsError
  | botoCoreError (msg : String)
  | otherError (msg : String)
deriving DecidableEq

/-- `secrets_manager_simple.get_secret`: returns the SecretString on success
and `None` on every error branch — `ClientError` of any code (including
`ResourceNotFoundException`), `NoCredentialsError`, `BotoCoreError`, and any
unexpected exception. -/
def get_secret : AwsResponse → Option String
  | .success s => some s
  | .clientError _ => none
  | .noCredentialsError => none
  | .botoCoreError _ => none
  | .otherError _ => none

/-- `JavaAppDeployer.setup_ssh_key`: fetches the key via `get_secret`; a
falsy key (`None` or the empty string) fails the stage.  `fsOk` models
whether the filesystem part (mkdir `.ssh`, write key, chmod 600, write ssh
config) completes without raising; any exception is caught by the stage's
`except Exception` and turned into `False`. -/
def setup_ssh_key (resp : AwsResponse) (fsOk : Bool) : Bool :=
  match get_secret resp with
  | none => false
  | some key => if key = "" then false else fsOk

/-- Contents of a directory: file names paired with sizes. -/
abbrev DirContent := List (String × Nat)

/-- Observable subprocess actions of `clone_repository`. -/
inductive CloneEv
  | rmExisting
  | gitClone
deriving DecidableEq

/-- Environment for one `clone_repository` call: whether `rm -rf` and
`git clone` exit zero, the content a successful clone materializes, and the
(unspecified) directory states left behind by a failed removal or clone. -/
structure CloneEnv where
  rmSucceeds : Bool
  cloneSucceeds : Bool
  clonedContent : DirContent
  failedRmContent : Option DirContent
  failedCloneContent : Option DirContent
deriving DecidableEq

/-- The `git clone` step of `clone_repository` (run with `check=True`; a
non-zero exit raises `CalledProcessError`, caught by the stage → `False`). -/
def cloneStep (env : CloneEnv) (evs : List CloneEv) :
    Option DirContent × Bool × List CloneEv :=
  if env.cloneSucceeds then
    (some env.clonedContent, true, evs ++ [CloneEv.gitClone])
  else
    (env.failedCloneContent, false, evs ++ [CloneEv.gitClone])

/-- `JavaAppDeployer.clone_repository`: if the target directory exists it is
first removed with `rm -rf` (`check=True`), then the repository is cloned
into it; either subprocess failing is caught and reported as `False`.
Returns the resulting directory state, the boolean result, and the
subprocess-event trace. -/
def clone_repository (env : CloneEnv) (target : Option DirContent) :
    Option DirContent × Bool × List CloneEv :=
  match target with
  | some _ =>
      if env.rmSucceeds then cloneStep env [CloneEv.rmExisting]
      else (env.failedRmContent, false, [CloneEv.rmExisting])
  | none => cloneStep env []

/-- A host filesystem fragment: existing file paths with their sizes. -/
abbrev FileSystem := List (String × Nat)

/-- Lookup of a path in the filesystem fragment (`Path.exists` / `stat`). -/
def fsLookup : FileSystem → String → Option Nat
  | [], _ => none
  | (q, sz) :: rest, p => if q = p then some sz else fsLookup rest p

/-- The fixed artifact path `self.target_dir / "build" / "libs" /
"project.jar"` used by `verify_jar_exists` and `start_java_process`. -/
def jarPath (targetDir : String) : String :=
  targetDir ++ "/build/libs/project.jar"

/-- `JavaAppDeployer.verify_jar_exists`: true iff a file exists at the fixed
relative path `build/libs/project.jar` under the target directory (on
success the size is also read via `stat` for the diagnostic message). -/
def verify_jar_exists (fs : FileSystem) (targetDir : String) : Bool :=
  match fsLookup fs (jarPath targetDir) with
  | some _ => true
  | none => false

/-- The ordered probe list `java_paths_to_try` of `_find_java_home`. -/
def java_paths_to_try : List String :=
  ["/usr/lib/jvm/java-17-amazon-corretto",
   "/usr/lib/jvm/java-17-amazon-corretto.x86_64",
   "/usr/lib/jvm/java-17-openjdk",
   "/usr/lib/jvm/java-17",
   "/usr/java/amazon-corretto-17",
   "/opt/java/openjdk"]

/-- The two paths re-probed after the last-resort `yum install` attempt. -/
def reinstallProbePaths : List String :=
  ["/usr/lib/jvm/java-17-amazon-corretto",
   "/usr/lib/jvm/java-17-amazon-corretto.x86_64"]

/-- Observable steps of `_find_java_home`: probing one well-known path,
consulting the `which java` PATH fallback, attempting the `yum install`
fallback. -/
inductive ProbeEv
  | probeCheck (path : String)
  | whichFallback
  | installFallback
deriving DecidableEq

/-- Host state consulted by `_find_java_home`: which paths exist, the
`which java` resolution (`some path` when it exits 0), whether the
last-resort install succeeds, and the post-install host state. -/
structure HostEnv where
  pathExists : String → Bool
  whichJava : Option String
  installSucceeds : Bool
  postInstallExists : String → Bool
  postInstallWhich : Option String

/-- The probe loop of `_find_java_home`: for each candidate `path` in order,
check `Path(path + "/bin/java").exists()` and return the first hit. -/
def probeLoop (ex : String → Bool) : List String → Option String × List ProbeEv
  | [] => (none, [])
  | p :: rest =>
      if ex (p ++ "/bin/java") then (some p, [ProbeEv.probeCheck p])
      else ((probeLoop ex rest).1, ProbeEv.probeCheck p :: (probeLoop ex rest).2)

/-- Python's `"/bin/java" in s` substring test. -/
def containsBinJava (s : String) : Bool :=
  (s.splitOn "/bin/java").length != 1

/-- Python's `s.replace("/bin/java", "")`. -/
def stripBinJava (s : String) : String :=
  s.replace "/bin/java" ""

/-- Last-resort branch of `_find_java_home`: after the diagnostic dumps
(`ls /usr/lib/jvm`, `rpm -qa`, userdata log tail — logging only), attempt
`yum install`; on success re-probe the two corretto paths, then `which java`
again; otherwise (and if all of that misses) return `None`. -/
def installSearch (env : HostEnv) (evs : List ProbeEv) :
    Option String × List ProbeEv :=
  if env.installSucceeds then
    match probeLoop env.postInstallExists reinstallProbePaths with
    | (some p, evs2) => (some p, evs ++ [ProbeEv.installFallback] ++ evs2)
    | (none, evs2) =>
        match env.postInstallWhich with
        | some s =>
            if containsBinJava s then
              (some (stripBinJava s), evs ++ [ProbeEv.installFallback] ++ evs2)
            else (none, evs ++ [ProbeEv.installFallback] ++ evs2)
        | none => (none, evs ++ [ProbeEv.installFallback] ++ evs2)
  else (none, evs ++ [ProbeEv.installFallback])

/-- PATH fallback of `_find_java_home`: if `which java` exits 0 and the
resolved path contains `/bin/java`, derive JAVA_HOME by stripping it; if it
exits 0 without `/bin/java` in the path, return `None` outright; if it
fails, fall through to the install attempt. -/
def fallbackSearch (env : HostEnv) (evs : List ProbeEv) :
    Option String × List ProbeEv :=
  match env.whichJava with
  | some s =>
      if containsBinJava s then
        (some (stripBinJava s), evs ++ [ProbeEv.whichFallback])
      else (none, evs ++ [ProbeEv.whichFallback])
  | none => installSearch env (evs ++ [ProbeEv.whichFallback])

/-- `JavaAppDeployer._find_java_home`: probe the ordered well-known paths;
only if none matches, consult the `which java` fallback and then the
install fallback. -/
def find_java_home (env : HostEnv) : Option String × List ProbeEv :=
  match probeLoop env.pathExists java_paths_to_try with
  | (some p, evs) => (some p, evs)
  | (none, evs) => fallbackSearch env evs

/-- A `subprocess.Popen` handle: the child's pid and the cached
`returncode` (set once the process has been reaped by `poll`/`wait`/
`communicate`; `none` while the handle still considers it running). -/
structure Popen where
  pid : Nat
  returncode : Option Int
deriving DecidableEq

/-- The supervisor state: the `self.java_process` field (None before any
launch). -/
structure SupState where
  java_process : Option Popen
deriving DecidableEq

/-- Environment of one `start_java_process` call: the host state driving
`_find_java_home`, whether `Popen` itself raises, the pid the spawn gets,
and — when the child dies inside the 2-second grace window — its exit code
and captured stdout/stderr. -/
structure LaunchEnv where
  host : HostEnv
  spawnException : Bool
  spawnedPid : Nat
  graceExit : Option (Int × String × String)

/-- `JavaAppDeployer.start_java_process`: locate Java via `_find_java_home`
(failure → `False` with the state untouched); spawn the jar with piped
stdout/stderr, assigning `self.java_process`; sleep 2 seconds; if `poll()`
is `None` the launch is reported successful, otherwise `communicate()`
collects the output, the exit code and output are reported, and `False` is
returned — with `self.java_process` still holding the exited process.
Returns (new state, boolean result, reported exit code/stdout/stderr). -/
def start_java_process (env : LaunchEnv) (st : SupState) :
    SupState × Bool × Option (Int × String × String) :=
  match (find_java_home env.host).1 with
  | none => (st, false, none)
  | some _ =>
      if env.spawnException then (st, false, none)
      else
        match env.graceExit with
        | none => ({ java_process := some ⟨env.spawnedPid, none⟩ }, true, none)
        | some (code, outS, errS) =>
            ({ java_process := some ⟨env.spawnedPid, some code⟩ }, false,
             some (code, outS, errS))

/-- Environment of one `stop_java_process` call on a still-running child:
whether it exits within the 10-second `wait` timeout, and its exit code if
so. -/
structure StopEnv where
  exitsWithinTimeout : Bool
  exitCode : Int
deriving DecidableEq

/-- `Popen` method calls made by `stop_java_process`. -/
inductive StopCall
  | terminateCall (pid : Nat)
  | waitTimeoutCall (pid : Nat) (secs : Nat)
  | killCall (pid : Nat)
  | waitCall (pid : Nat)
deriving DecidableEq

/-- Signals actually delivered to the child by the CPython `Popen` methods
(`send_signal` polls first and skips `os.kill` when `returncode` is already
set). -/
inductive Sig
  | sigterm (pid : Nat)
  | sigkill (pid : Nat)
deriving DecidableEq

/-- `JavaAppDeployer.stop_java_process`: a no-op when `self.java_process`
is `None`.  Otherwise calls `terminate()` (which delivers SIGTERM only if
the handle has not already been reaped — CPython's `send_signal` polls and
skips `os.kill` when `returncode` is set), then `wait(timeout=10)`; on
`TimeoutExpired` it calls `kill()` (SIGKILL) and an untimed `wait()`.
Returns (new state, Popen-call trace, delivered-signal trace). -/
def stop_java_process (env : StopEnv) (st : SupState) :
    SupState × List StopCall × List Sig :=
  match st.java_process with
  | none => (st, [], [])
  | some p =>
      match p.returncode with
      | some _ =>
          (st, [StopCall.terminateCall p.pid, StopCall.waitTimeoutCall p.pid 10],
           [])
      | none =>
          if env.exitsWithinTimeout then
            ({ java_process := some ⟨p.pid, some env.exitCode⟩ },
             [StopCall.terminateCall p.pid, StopCall.waitTimeoutCall p.pid 10],
             [Sig.sigterm p.pid])
          else
            ({ java_process := some ⟨p.pid, some (-9)⟩ },
             [StopCall.terminateCall p.pid, StopCall.waitTimeoutCall p.pid 10,
              StopCall.killCall p.pid, StopCall.waitCall p.pid],
             [Sig.sigterm p.pid, Sig.sigkill p.pid])

/-- The five pipeline stages of `JavaAppDeployer.deploy`
(deployment_script_simple.py variant, which includes the build stage). -/
inductive Stage
  | setupSshKey
  | cloneRepository
  | buildJavaApplication
  | verifyJarExists
  | startJavaProcess
deriving DecidableEq

/-- Outcome of each stage call for one deployment attempt: `ok b` when the
stage returns the boolean `b`, `error e` when it raises `e` (only
non-`Exception` raises can actually escape a stage, but the model lets any
stage yield any outcome). -/
structure DeployEnv where
  setupResult : Except PyExc Bool
  cloneResult : Except PyExc Bool
  buildResult : Except PyExc Bool
  verifyResult : Except PyExc Bool
  startResult : Except PyExc Bool

/-- The outcome `deploy` observes when it calls the given stage. -/
def stageResult (env : DeployEnv) : Stage → Except PyExc Bool
  | .setupSshKey => env.setupResult
  | .cloneRepository => env.cloneResult
  | .buildJavaApplication => env.buildResult
  | .verifyJarExists => env.verifyResult
  | .startJavaProcess => env.startResult

/-- The fixed stage order of `deploy`. -/
def deployOrder : List Stage :=
  [Stage.setupSshKey, Stage.cloneRepository, Stage.buildJavaApplication,
   Stage.verifyJarExists, Stage.startJavaProcess]

/-- The `try` body of `deploy`: run stages in order; `if not stage(): return
False` stops at the first stage returning `False`; a raise aborts the
sequence immediately.  Returns the list of stages actually executed and the
body's outcome. -/
def runStages (env : DeployEnv) : List Stage → List Stage × Except PyExc Bool
  | [] => ([], Except.ok true)
  | s :: rest =>
      match stageResult env s with
      | Except.ok true =>
          match runStages env rest with
          | (tr, r) => (s :: tr, r)
      | Except.ok false => ([s], Except.ok false)
      | Except.error e => ([s], Except.error e)

/-- `JavaAppDeployer.deploy`: the staged body wrapped in
`except Exception: return False` — an escaping raise is converted to
`False` exactly when its class derives from `Exception`. -/
def deploy (env : DeployEnv) : List Stage × Except PyExc Bool :=
  match runStages env deployOrder with
  | (tr, Except.error e) =>
      if e.isExceptionKind then (tr, Except.ok false) else (tr, Except.error e)
  | (tr, Except.ok b) => (tr, Except.ok b)

/-- Exit code of `main`: falls off the end (exit 0) when `deploy()` returns
True, `sys.exit(1)` when it returns False. -/
def mainExitCode (deployOk : Bool) : Nat :=
  if deployOk then 0 else 1

/-- A stage outcome that `deploy`'s `except Exception` wrapper can absorb:
either a returned boolean or an `Exception`-derived raise. -/
def catchable : Except PyExc Bool → Bool
  | Except.error e => e.isExceptionKind
  | Except.ok _ => true

/-- Concrete deployment attempt whose clone stage returns failure. -/
def envFailClone : DeployEnv :=
  ⟨Except.ok true, Except.ok false, Except.ok true, Except.ok true,
   Except.ok true⟩

/-- A staged directory with no file at `./app/build/libs/project.jar`. -/
def fsNoJar : FileSystem :=
  [("./app/README.md", 12), ("./app/gradlew", 8000)]

/-- Deployment attempt whose verification outcome is exactly what
`verify_jar_exists` computes on `fsNoJar`. -/
def envVerifyLinked : DeployEnv :=
  ⟨Except.ok true, Except.ok true, Except.ok true,
   Except.ok (verify_jar_exists fsNoJar "./app"), Except.ok true⟩

/-- Deployment attempt in which the first stage is interrupted by
`sys.exit(0)` (a `SystemExit`, not `Exception`-derived). -/
def envSystemExit : DeployEnv :=
  ⟨Except.error (PyExc.systemExit 0), Except.ok true, Except.ok true,
   Except.ok true, Except.ok true⟩

/-- Deployment attempt whose clone stage raises an `Exception`-derived
error. -/
def envCloneRaises : DeployEnv :=
  ⟨Except.ok true, Except.error (PyExc.osError "disk full"), Except.ok true,
   Except.ok true, Except.ok true⟩

/-- Deployment attempt whose credential stage outcome is exactly what
`setup_ssh_key` computes when the secret store reports
`ResourceNotFoundException`. -/
def envNotFound : DeployEnv :=
  ⟨Except.ok
     (setup_ssh_key (AwsResponse.clientError "ResourceNotFoundException") true),
   Except.ok true, Except.ok true, Except.ok true, Except.ok true⟩

/-- A host on which only the third probe path holds a java binary. -/
def hostThird : HostEnv :=
  ⟨fun p => p == "/usr/lib/jvm/java-17-openjdk/bin/java", none, false,
   fun _ => false, none⟩

/-- A host on which the second and sixth probe paths both hold a java
binary and the PATH and install fallbacks would also succeed. -/
def hostMulti : HostEnv :=
  ⟨fun p =>
      p == "/usr/lib/jvm/java-17-amazon-corretto.x86_64/bin/java" ||
      p == "/opt/java/openjdk/bin/java",
   some "/usr/bin/java", true, fun _ => true, some "/usr/bin/java"⟩

/-- A launch whose child exits with code 1 inside the grace window. -/
def launchDies : LaunchEnv :=
  ⟨hostThird, false, 4242, some (1, "boot log", "port already in use")⟩

/-- A second launch whose child exits inside the grace window. -/
def launchDies2 : LaunchEnv :=
  ⟨hostThird, false, 777, some (134, "", "OutOfMemoryError")⟩

/-- A clone environment where both subprocesses exit zero. -/
def cloneEnvW : CloneEnv :=
  ⟨true, true, [("README.md", 3), ("gradlew", 100)], none, none⟩

/-- Stale prior content of the target directory. -/
def oldContent : DirContent := [("stale.txt", 9)]

/-- A handle to a still-running child (returncode not yet set). -/
def popenLive : Popen := ⟨31337, none⟩

/-- Another handle to a still-running child. -/
def popenLive2 : Popen := ⟨88, none⟩

/-- A stop call during which the child exits within the 10s timeout. -/
def stopW1 : StopEnv := ⟨true, 0⟩

/-- A second stop call (timeout behaviour irrelevant after reaping). -/
def stopW2 : StopEnv := ⟨false, 0⟩

/-- A stop call during which the child ignores SIGTERM past the timeout. -/
def stopW3 : StopEnv := ⟨false, 0⟩

/-- A stop call issued after a failed launch. -/
def stopW4 : StopEnv := ⟨true, 0⟩

theorem runStages_take (env : DeployEnv) :
    ∀ l : List Stage, ∃ n, (runStages env l).1 = List.take n l := by
  intro l
  induction l with
  | nil => exact ⟨0, rfl⟩
  | cons s rest ih =>
      cases hr : stageResult env s with
      | error e => exact ⟨1, by simp [runStages, hr]⟩
      | ok b =>
          cases b with
          | false => exact ⟨1, by simp [runStages, hr]⟩
          | true =>
              obtain ⟨n, hn⟩ := ih
              exact ⟨n + 1, by simp [runStages, hr, hn, List.take_succ_cons]⟩

theorem deploy_fst (env : DeployEnv) :
    (deploy env).1 = (runStages env deployOrder).1 := by
  unfold deploy
  rcases hr : runStages env deployOrder with ⟨tr, r⟩
  rcases r with e | b
  · cases he : e.isExceptionKind <;> simp [he]
  · rfl

theorem verify_false_no_start (env : DeployEnv)
    (h : env.verifyResult = Except.ok false) :
    Stage.startJavaProcess ∉ (deploy env).1 := by
  rw [deploy_fst]
  cases h1 : env.setupResult with
  | error e => simp [runStages, deployOrder, stageResult, h1]
  | ok b1 =>
      cases b1 with
      | false => simp [runStages, deployOrder, stageResult, h1]
      | true =>
          cases h2 : env.cloneResult with
          | error e => simp [runStages, deployOrder, stageResult, h1, h2]
          | ok b2 =>
              cases b2 with
              | false => simp [runStages, deployOrder, stageResult, h1, h2]
              | true =>
                  cases h3 : env.buildResult with
                  | error e =>
                      simp [runStages, deployOrder, stageResult, h1, h2, h3]
                  | ok b3 =>
                      cases b3 with
                      | false =>
                          simp [runStages, deployOrder, stageResult, h1, h2, h3]
                      | true =>
                          simp [runStages, deployOrder, stageResult,
                            h1, h2, h3, h]

theorem runStages_error_mem (env : DeployEnv) :
    ∀ l : List Stage, ∀ e : PyExc, (runStages env l).2 = Except.error e →
      ∃ s, s ∈ l ∧ stageResult env s = Except.error e := by
  intro l
  induction l with
  | nil => intro e he; simp [runStages] at he
  | cons s rest ih =>
      intro e he
      cases hr : stageResult env s with
      | error e2 =>
          simp [runStages, hr] at he
          exact ⟨s, List.mem_cons_self s rest, by rw [hr, he]⟩
      | ok b =>
          cases b with
          | false => simp [runStages, hr] at he
          | true =>
              simp only [runStages, hr] at he
              obtain ⟨s2, hs2, hse⟩ := ih e he
              exact ⟨s2, List.mem_cons_of_mem s hs2, hse⟩

/-- C1: `deploy` runs its stages in the strict order credential setup,
clone, build, artifact verification, process launch — the executed-stage
trace is always a prefix of that order — and whichever stage first returns
failure makes `deploy` return failure immediately, with the trace ending at
that stage (so it is executed exactly once and no later stage runs). -/
theorem deploy_linear_pipeline (env : DeployEnv) :
    (∃ n, (deploy env).1 = List.take n deployOrder) ∧
    (env.setupResult = Except.ok false →
      deploy env = ([Stage.setupSshKey], Except.ok false)) ∧
    (env.setupResult = Except.ok true → env.cloneResult = Except.ok false →
      deploy env = ([Stage.setupSshKey, Stage.cloneRepository],
        Except.ok false)) ∧
    (env.setupResult = Except.ok true → env.cloneResult = Except.ok true →
      env.buildResult = Except.ok false →
      deploy env = ([Stage.setupSshKey, Stage.cloneRepository,
        Stage.buildJavaApplication], Except.ok false)) ∧
    (env.setupResult = Except.ok true → env.cloneResult = Except.ok true →
      env.buildResult = Except.ok true → env.verifyResult = Except.ok false →
      deploy env = ([Stage.setupSshKey, Stage.cloneRepository,
        Stage.buildJavaApplication, Stage.verifyJarExists],
        Except.ok false)) ∧
    (env.setupResult = Except.ok true → env.cloneResult = Except.ok true →
      env.buildResult = Except.ok true → env.verifyResult = Except.ok true →
      env.startResult = Except.ok false →
      deploy env = (deployOrder, Except.ok false)) := by
  refine ⟨?_, ?_, ?_, ?_, ?_, ?_⟩
  · rw [deploy_fst]; exact runStages_take env deployOrder
  · intro h1
    simp [deploy, runStages, deployOrder, stageResult, h1]
  · intro h1 h2
    simp [deploy, runStages, deployOrder, stageResult, h1, h2]
  · intro h1 h2 h3
    simp [deploy, runStages, deployOrder, stageResult, h1, h2, h3]
  · intro h1 h2 h3 h4
    simp [deploy, runStages, deployOrder, stageResult, h1, h2, h3, h4]
  · intro h1 h2 h3 h4 h5
    simp [deploy, runStages, deployOrder, stageResult, h1, h2, h3, h4, h5]

/-- Witness for C1: with the clone stage failing concretely, `deploy` stops
right after the clone stage and reports failure. -/
theorem deploy_linear_pipeline_witness :
    envFailClone.setupResult = Except.ok true ∧
    envFailClone.cloneResult = Except.ok false ∧
    deploy envFailClone =
      ([Stage.setupSshKey, Stage.cloneRepository], Except.ok false) :=
  ⟨rfl, rfl, (deploy_linear_pipeline envFailClone).2.2.1 rfl rfl⟩

/-- C2: when the staged directory has no file at the fixed relative path
`build/libs/project.jar`, `verify_jar_exists` returns failure, and in any
deployment whose verification stage yields that outcome the launch stage is
never executed (`start_java_process`, the only process spawner, never
appears in the executed-stage trace). -/
theorem verify_jar_missing_blocks_launch (fs : FileSystem) (d : String)
    (env : DeployEnv)
    (hmiss : fsLookup fs (jarPath d) = none)
    (hlink : env.verifyResult = Except.ok (verify_jar_exists fs d)) :
    verify_jar_exists fs d = false ∧
    Stage.startJavaProcess ∉ (deploy env).1 := by
  have hv : verify_jar_exists fs d = false := by
    simp [verify_jar_exists, hmiss]
  exact ⟨hv, verify_false_no_start env (by rw [hlink, hv])⟩

/-- Witness for C2: a concrete staged directory without the jar fails
verification and the launch stage is never reached. -/
theorem verify_jar_missing_blocks_launch_witness :
    fsLookup fsNoJar (jarPath "./app") = none ∧
    verify_jar_exists fsNoJar "./app" = false ∧
    Stage.startJavaProcess ∉ (deploy envVerifyLinked).1 := by
  have h := verify_jar_missing_blocks_launch fsNoJar "./app" envVerifyLinked
    (by decide) rfl
  exact ⟨by decide, h.1, h.2⟩

/-- C8: when the secret store reports `ResourceNotFoundException`,
`get_secret` yields no secret value, `setup_ssh_key` fails, `deploy` aborts
at the credential stage with the clone stage never executed, and `main`
exits with code 1. -/
theorem resource_not_found_aborts (env : DeployEnv) (fsOk : Bool)
    (hlink : env.setupResult = Except.ok
      (setup_ssh_key (AwsResponse.clientError "ResourceNotFoundException")
        fsOk)) :
    get_secret (AwsResponse.clientError "ResourceNotFoundException") = none ∧
    setup_ssh_key (AwsResponse.clientError "ResourceNotFoundException") fsOk
      = false ∧
    deploy env = ([Stage.setupSshKey], Except.ok false) ∧
    Stage.cloneRepository ∉ (deploy env).1 ∧
    mainExitCode false = 1 := by
  have hs : setup_ssh_key
      (AwsResponse.clientError "ResourceNotFoundException") fsOk = false := rfl
  have hd : deploy env = ([Stage.setupSshKey], Except.ok false) := by
    rw [hs] at hlink
    simp [deploy, runStages, deployOrder, stageResult, hlink]
  refine ⟨rfl, hs, hd, ?_, rfl⟩
  rw [hd]
  decide

/-- Witness for C8: the concrete missing-secret deployment aborts before
the clone stage with exit code 1. -/
theorem resource_not_found_aborts_witness :
    envNotFound.setupResult = Except.ok
      (setup_ssh_key (AwsResponse.clientError "ResourceNotFoundException")
        true) ∧
    deploy envNotFound = ([Stage.setupSshKey], Except.ok false) ∧
    Stage.cloneRepository ∉ (deploy envNotFound).1 ∧
    mainExitCode false = 1 := by
  have h := resource_not_found_aborts envNotFound true rfl
  exact ⟨rfl, h.2.2.1, h.2.2.2.1, h.2.2.2.2⟩

/-- C9 counterexample: a stage interrupted by `sys.exit(0)` raises
`SystemExit`, which is not `Exception`-derived, so `deploy`'s
`except Exception` handler does not catch it — `deploy` propagates the
exception instead of returning a boolean. -/
theorem deploy_totality_counterexample :
    (deploy envSystemExit).2 = Except.error (PyExc.systemExit 0) ∧
    (deploy envSystemExit).2 ≠ Except.ok true ∧
    (deploy envSystemExit).2 ≠ Except.ok false := by
  refine ⟨rfl, ?_, ?_⟩ <;> intro h <;>
    simp [deploy, runStages, deployOrder, stageResult, envSystemExit,
      PyExc.isExceptionKind] at h

/-- C9 (amended): `deploy` returns a boolean — never propagating — for
every deployment attempt in which each stage either returns a boolean or
raises an `Exception`-derived exception; only exceptions outside the
`Exception` hierarchy (`SystemExit`, `KeyboardInterrupt`) escape. -/
theorem deploy_catches_exception_kind (env : DeployEnv)
    (h : catchable env.setupResult = true ∧ catchable env.cloneResult = true ∧
      catchable env.buildResult = true ∧ catchable env.verifyResult = true ∧
      catchable env.startResult = true) :
    (deploy env).2 = Except.ok true ∨ (deploy env).2 = Except.ok false := by
  obtain ⟨h1, h2, h3, h4, h5⟩ := h
  rcases hr : runStages env deployOrder with ⟨tr, r⟩
  rcases r with e | b
  · obtain ⟨s, _, hse⟩ := runStages_error_mem env deployOrder e (by rw [hr])
    have hk : e.isExceptionKind = true := by
      cases s with
      | setupSshKey =>
          simp only [stageResult] at hse; rw [hse] at h1
          simpa [catchable] using h1
      | cloneRepository =>
          simp only [stageResult] at hse; rw [hse] at h2
          simpa [catchable] using h2
      | buildJavaApplication =>
          simp only [stageResult] at hse; rw [hse] at h3
          simpa [catchable] using h3
      | verifyJarExists =>
          simp only [stageResult] at hse; rw [hse] at h4
          simpa [catchable] using h4
      | startJavaProcess =>
          simp only [stageResult] at hse; rw [hse] at h5
          simpa [catchable] using h5
    right
    simp [deploy, hr, hk]
  · cases b
    · right; simp [deploy, hr]
    · left; simp [deploy, hr]

/-- Witness for the amended C9: a stage raising an `Exception`-derived
error is absorbed and `deploy` returns a boolean. -/
theorem deploy_catches_exception_kind_witness :
    catchable envCloneRaises.cloneResult = true ∧
    ((deploy envCloneRaises).2 = Except.ok true ∨
      (deploy envCloneRaises).2 = Except.ok false) :=
  ⟨rfl, deploy_catches_exception_kind envCloneRaises
    ⟨rfl, rfl, rfl, rfl, rfl⟩⟩

theorem probeLoop_fst (ex : String → Bool) :
    ∀ l : List String,
      (probeLoop ex l).1 = l.find? (fun p => ex (p ++ "/bin/java")) := by
  intro l
  induction l with
  | nil => rfl
  | cons p rest ih =>
      cases he : ex (p ++ "/bin/java") with
      | true => simp [probeLoop, List.find?, he]
      | false => simp [probeLoop, List.find?, he, ih]

theorem probeLoop_events (ex : String → Bool) :
    ∀ l : List String, ∀ ev, ev ∈ (probeLoop ex l).2 →
      ∃ p, ev = ProbeEv.probeCheck p := by
  intro l
  induction l with
  | nil => intro ev h; simp [probeLoop] at h
  | cons p rest ih =>
      intro ev h
      cases he : ex (p ++ "/bin/java") with
      | true =>
          simp [probeLoop, he] at h
          exact ⟨p, h⟩
      | false =>
          simp [probeLoop, he] at h
          rcases h with h | h
          · exact ⟨p, h⟩
          · exact ih ev h

/-- C7: whenever some entry of the ordered probe list has a java binary,
`_find_java_home` returns the first matching path in list order and never
consults the `which java` PATH fallback or the install fallback. -/
theorem find_java_home_first_match (env : HostEnv) (q : String)
    (h : java_paths_to_try.find?
      (fun p => env.pathExists (p ++ "/bin/java")) = some q) :
    (find_java_home env).1 = some q ∧
    ProbeEv.whichFallback ∉ (find_java_home env).2 ∧
    ProbeEv.installFallback ∉ (find_java_home env).2 := by
  unfold find_java_home
  rcases hp : probeLoop env.pathExists java_paths_to_try with ⟨r, evs⟩
  have h1 : r = some q := by
    have h2 := probeLoop_fst env.pathExists java_paths_to_try
    rw [hp] at h2
    exact h2.trans h
  subst h1
  refine ⟨rfl, ?_, ?_⟩ <;> intro hmem
  · obtain ⟨pp, hpp⟩ := probeLoop_events env.pathExists java_paths_to_try
      ProbeEv.whichFallback (by rw [hp]; exact hmem)
    simp at hpp
  · obtain ⟨pp, hpp⟩ := probeLoop_events env.pathExists java_paths_to_try
      ProbeEv.installFallback (by rw [hp]; exact hmem)
    simp at hpp

/-- Witness for C7: on a host where the second and sixth probe paths both
match (and both fallbacks would also succeed), discovery returns the
second path and consults no fallback. -/
theorem find_java_home_first_match_witness :
    java_paths_to_try.find?
      (fun p => hostMulti.pathExists (p ++ "/bin/java")) =
      some "/usr/lib/jvm/java-17-amazon-corretto.x86_64" ∧
    (find_java_home hostMulti).1 =
      some "/usr/lib/jvm/java-17-amazon-corretto.x86_64" ∧
    ProbeEv.whichFallback ∉ (find_java_home hostMulti).2 ∧
    ProbeEv.installFallback ∉ (find_java_home hostMulti).2 := by
  have h := find_java_home_first_match hostMulti
    "/usr/lib/jvm/java-17-amazon-corretto.x86_64" (by decide)
  exact ⟨by decide, h.1, h.2.1, h.2.2⟩

/-- C3: when the child exits within the 2-second grace window (and Java was
found so the spawn happened), `start_java_process` returns `False`, reports
the captured exit code, stdout and stderr, and leaves no handle to a
running process — any handle held afterwards is to an already-exited
process. -/
theorem start_java_process_grace_exit (env : LaunchEnv) (st : SupState)
    (c : Int) (outS errS : String)
    (hjava : ((find_java_home env.host).1).isSome = true)
    (hspawn : env.spawnException = false)
    (hexit : env.graceExit = some (c, outS, errS)) :
    (start_java_process env st).2.1 = false ∧
    (start_java_process env st).2.2 = some (c, outS, errS) ∧
    ∀ q : Popen, (start_java_process env st).1.java_process = some q →
      q.returncode = some c := by
  rcases hj : (find_java_home env.host).1 with _ | jh
  · rw [hj] at hjava; simp at hjava
  · refine ⟨?_, ?_, ?_⟩
    · simp [start_java_process, hj, hspawn, hexit]
    · simp [start_java_process, hj, hspawn, hexit]
    · intro q hq
      simp [start_java_process, hj, hspawn, hexit] at hq
      rw [← hq]

/-- Witness for C3: a concrete launch whose child dies in the grace window
is reported as failed together with its exit code and output. -/
theorem start_java_process_grace_exit_witness :
    ((find_java_home launchDies.host).1).isSome = true ∧
    (start_java_process launchDies ⟨none⟩).2.1 = false ∧
    (start_java_process launchDies ⟨none⟩).2.2 =
      some (1, "boot log", "port already in use") := by
  have h := start_java_process_grace_exit launchDies ⟨none⟩ 1 "boot log"
    "port already in use" (by decide) rfl rfl
  exact ⟨by decide, h.1, h.2.1⟩

/-- C4: `stop_java_process` is idempotent: called before any launch it is a
no-op raising no error, and called a second time right after a completed
termination it raises no error, delivers no signal to the already-reaped
process, and leaves the state unchanged. -/
theorem stop_java_process_idempotent (env1 env2 : StopEnv) (p : Popen)
    (halive : p.returncode = none) :
    stop_java_process env1 ⟨none⟩ = (⟨none⟩, [], []) ∧
    (stop_java_process env2 ((stop_java_process env1 ⟨some p⟩).1)).2.2
      = [] ∧
    (stop_java_process env2 ((stop_java_process env1 ⟨some p⟩).1)).1 =
      (stop_java_process env1 ⟨some p⟩).1 := by
  refine ⟨rfl, ?_, ?_⟩ <;>
    cases h1 : env1.exitsWithinTimeout <;>
      simp [stop_java_process, halive, h1]

/-- Witness for C4: concrete no-launch call is a no-op and a concrete
second call after termination delivers no signal. -/
theorem stop_java_process_idempotent_witness :
    popenLive.returncode = none ∧
    stop_java_process stopW1 ⟨none⟩ = (⟨none⟩, [], []) ∧
    (stop_java_process stopW2
      ((stop_java_process stopW1 ⟨some popenLive⟩).1)).2.2 = [] := by
  have h := stop_java_process_idempotent stopW1 stopW2 popenLive rfl
  exact ⟨rfl, h.1, h.2.1⟩

/-- C5: on a launched, still-running process, `stop_java_process` first
calls `terminate()`, then `wait(timeout=10)`, and calls `kill()` followed
by an untimed `wait()` exactly when the process has not exited within the
10-second timeout. -/
theorem stop_java_process_sequence (env : StopEnv) (p : Popen)
    (halive : p.returncode = none) :
    (stop_java_process env ⟨some p⟩).2.1 =
      [StopCall.terminateCall p.pid, StopCall.waitTimeoutCall p.pid 10] ++
        (if env.exitsWithinTimeout then []
         else [StopCall.killCall p.pid, StopCall.waitCall p.pid]) ∧
    (StopCall.killCall p.pid ∈ (stop_java_process env ⟨some p⟩).2.1 ↔
      env.exitsWithinTimeout = false) := by
  cases h : env.exitsWithinTimeout <;>
    simp [stop_java_process, halive, h]

/-- Witness for C5: a concrete stop of a process that ignores SIGTERM runs
terminate, timed wait, kill, untimed wait in that order. -/
theorem stop_java_process_sequence_witness :
    popenLive2.returncode = none ∧
    (stop_java_process stopW3 ⟨some popenLive2⟩).2.1 =
      [StopCall.terminateCall 88, StopCall.waitTimeoutCall 88 10,
       StopCall.killCall 88, StopCall.waitCall 88] := by
  have h := stop_java_process_sequence stopW3 popenLive2 rfl
  exact ⟨rfl, h.1⟩

/-- C6: whenever `clone_repository` succeeds, the target directory holds
exactly the freshly cloned content — none of the arbitrary prior content
remains — and a pre-existing directory was first removed (`rm -rf`) before
the clone ran. -/
theorem clone_repository_fresh_content (env : CloneEnv)
    (target : Option DirContent)
    (hok : (clone_repository env target).2.1 = true) :
    (clone_repository env target).1 = some env.clonedContent ∧
    (clone_repository env target).2.2 =
      (match target with
       | some _ => [CloneEv.rmExisting, CloneEv.gitClone]
       | none => [CloneEv.gitClone]) := by
  rcases target with _ | c
  · cases h2 : env.cloneSucceeds
    · simp [clone_repository, cloneStep, h2] at hok
    · simp [clone_repository, cloneStep, h2]
  · cases h1 : env.rmSucceeds
    · simp [clone_repository, h1] at hok
    · cases h2 : env.cloneSucceeds
      · simp [clone_repository, cloneStep, h1, h2] at hok
      · simp [clone_repository, cloneStep, h1, h2]

/-- Witness for C6: a successful clone over a concrete stale directory
leaves exactly the cloned content, after removing the old directory. -/
theorem clone_repository_fresh_content_witness :
    (clone_repository cloneEnvW (some oldContent)).2.1 = true ∧
    (clone_repository cloneEnvW (some oldContent)).1 =
      some cloneEnvW.clonedContent ∧
    (clone_repository cloneEnvW (some oldContent)).2.2 =
      [CloneEv.rmExisting, CloneEv.gitClone] := by
  have h := clone_repository_fresh_content cloneEnvW (some oldContent) rfl
  exact ⟨rfl, h.1, h.2⟩

/-- C10: `start_java_process` assigns the handle field before the grace
check, so after a launch that fails because the child exited within the
grace window, the supervisor still holds a handle to the exited process
(state is not restored to the no-handle state), and a subsequent
`stop_java_process` enters the termination branch on that dead process —
calling terminate and the timed wait, delivering no signal. -/
theorem launch_failure_retains_handle (env : LaunchEnv) (senv : StopEnv)
    (st : SupState) (c : Int) (outS errS : String)
    (hjava : ((find_java_home env.host).1).isSome = true)
    (hspawn : env.spawnException = false)
    (hexit : env.graceExit = some (c, outS, errS)) :
    (start_java_process env st).1.java_process =
      some ⟨env.spawnedPid, some c⟩ ∧
    (start_java_process env st).1.java_process ≠ none ∧
    (stop_java_process senv (start_java_process env st).1).2.1 =
      [StopCall.terminateCall env.spawnedPid,
       StopCall.waitTimeoutCall env.spawnedPid 10] ∧
    (stop_java_process senv (start_java_process env st).1).2.2 = [] := by
  rcases hj : (find_java_home env.host).1 with _ | jh
  · rw [hj] at hjava; simp at hjava
  · refine ⟨?_, ?_, ?_, ?_⟩ <;>
      simp [start_java_process, stop_java_process, hj, hspawn, hexit]

/-- Witness for C10: after a concrete failed launch the handle points at
the exited process and stop takes the termination branch on it. -/
theorem launch_failure_retains_handle_witness :
    launchDies2.graceExit = some (134, "", "OutOfMemoryError") ∧
    (start_java_process launchDies2 ⟨none⟩).1.java_process =
      some ⟨777, some 134⟩ ∧
    (stop_java_process stopW4
      (start_java_process launchDies2 ⟨none⟩).1).2.1 =
      [StopCall.terminateCall 777, StopCall.waitTimeoutCall 777 10] := by
  have h := launch_failure_retains_handle launchDies2 stopW4 ⟨none⟩ 134 ""
    "OutOfMemoryError" (by decide) rfl rfl
  exact ⟨rfl, h.1, h.2.2.1⟩

end Ec2Deploy
